import Mathlib

/-!
Verification of the query-lifecycle protocol engine of a Go HTTP SQL-client
driver (`restful.go`).  The Go source is shallowly embedded: pure helpers
become Lean functions, stateful methods on `*APIClient` become explicit
state-passing functions on `ClientState`, the network is a parameter
(an oracle function standing for the HTTP round trip), and Go's `int64`
is `Int` with explicit two's-complement wrapping where overflow matters.
Types and constants the driver uses but that are defined in sibling files
of the repository (the response/session wire structs, error sentinels,
header-name constants) are modelled from the specification and marked so.
-/

namespace DatabendGo

/-! ## Errors

Go errors in this driver form linear wrap chains (`pkg/errors.Wrap`).
`errors.Is(e, target)` walks the chain to a sentinel leaf.  The two
sentinels `ErrDoRequest` / `ErrReadResponse` are attached by `doRequest`
as the *cause* of a wrapper whose message is the transport error's text,
so a transport failure matches `errors.Is(·, ErrDoRequest)` and never
`errors.Is(·, context.Canceled)`. -/

/-- Error payload carried in-band inside a 200 query response
(modelled from the spec: the `QueryError` struct lives outside
`restful.go`; the spec calls it "an optional error payload"). -/
structure QueryError where
  code : Int
  message : String
deriving DecidableEq, Repr

/-- Shallow embedding of the Go error values that flow through this file.
`canceled` is `context.Canceled`; `doRequestFail m` is
`errors.Wrap(ErrDoRequest, m)`; `readResponseFail m` is
`errors.Wrap(ErrReadResponse, m)`; `apiError` is `NewAPIError(msg, status,
body)`; `queryErr` is an in-band query error used as a Go error value;
`generic` is any other leaf error; `wrap` is `errors.Wrap(cause, msg)`. -/
inductive GoErr where
  | canceled
  | doRequestFail (msg : String)
  | readResponseFail (msg : String)
  | apiError (msg : String) (status : Nat) (body : String)
  | queryErr (e : QueryError)
  | generic (msg : String)
  | wrap (msg : String) (cause : GoErr)
deriving DecidableEq, Repr

/-- `errors.Is(e, context.Canceled)`: walk the wrap chain. -/
def isCanceledErr : GoErr → Bool
  | .canceled => true
  | .wrap _ cause => isCanceledErr cause
  | _ => false

/-- `errors.Is(e, ErrDoRequest)`: the transport-send sentinel. -/
def isDoRequestErr : GoErr → Bool
  | .doRequestFail _ => true
  | .wrap _ cause => isDoRequestErr cause
  | _ => false

/-- `errors.Is(e, ErrReadResponse)`: the response-read sentinel. -/
def isReadResponseErr : GoErr → Bool
  | .readResponseFail _ => true
  | .wrap _ cause => isReadResponseErr cause
  | _ => false

/-- Modelled from the spec: `ErrDoRequest` is a sentinel created with
`errors.New` in a sibling file; only its identity matters here, its text
stands in for the unknown literal. -/
def errDoRequestText : String := "DoRequest"

/-- Modelled from the spec: text of the `ErrReadResponse` sentinel. -/
def errReadResponseText : String := "ReadResponse"

/-- `err.Error()` for the embedded error values: `pkg/errors.Wrap`
renders `msg + ": " + cause.Error()`. -/
def errText : GoErr → String
  | .canceled => "context canceled"
  | .doRequestFail m => m ++ ": " ++ errDoRequestText
  | .readResponseFail m => m ++ ": " ++ errReadResponseText
  | .apiError m status body => m ++ ", status: " ++ toString status ++ ", body: " ++ body
  | .queryErr e => toString e.code ++ ": " ++ e.message
  | .generic m => m
  | .wrap m cause => m ++ ": " ++ errText cause

/-- Whether the first list starts the second, character by character. -/
def charsStart : List Char → List Char → Bool
  | [], _ => true
  | _ :: _, [] => false
  | a :: as, b :: bs => a == b && charsStart as bs

/-- Whether the pattern occurs somewhere in the list. -/
def charsContain (pat : List Char) : List Char → Bool
  | [] => pat.isEmpty
  | c :: rest => charsStart pat (c :: rest) || charsContain pat rest

/-- Go's `strings.Contains(s, substr)`: true iff `substr` occurs in `s`
(and always true for the empty pattern). -/
def goStringsContains (s substr : String) : Bool :=
  charsContain substr.toList s.toList

/-- Modelled from the spec: the warehouse-provisioning marker string
(constant `ProvisionWarehouseTimeout`, defined in a sibling file; the spec
describes the check as "its message indicates the remote warehouse is
still provisioning", a substring match). -/
def ProvisionWarehouseTimeout : String := "ProvisionWarehouseTimeout"

/-- Modelled from the spec: `IsProxyErr` is defined in a sibling file of
the repository that is not part of the embedded source.  The spec's retry
classification (§4.2) is exhaustive — "retried iff: transport-send
failure, response-read failure, or (Query only) provisioning message" —
and names no proxy category, so the spec-faithful model recognises no
additional errors. -/
def IsProxyErr (_e : GoErr) : Bool := false

/-! ## Wire data model

Modelled from the spec (§3): these structs are declared in sibling files
of the repository; `restful.go` only consumes the listed fields.  The raw
session payload (`*json.RawMessage`) is kept abstract as a `String`. -/

/-- Query response for one HTTP round trip (spec §3 "Query Response"). -/
structure QueryResponse where
  id : String := ""
  data : List (List String) := []
  nextURI : String := ""
  finalURI : String := ""
  killURI : String := ""
  error : Option QueryError := none
  session : Option String := none
  stats : Option String := none
deriving DecidableEq, Repr

/-- Modelled from the spec: `ReadFinished` is declared outside
`restful.go`; spec §3: "A response is finished when no continuation URI
is present." -/
def QueryResponse.ReadFinished (r : QueryResponse) : Bool :=
  r.nextURI == ""

/-- Pagination block of a query request (omitted when all fields zero). -/
structure PaginationConfig where
  maxRowsPerPage : Int
  maxRowsInBuffer : Int
  waitTime : Int
deriving DecidableEq, Repr

/-- Stage-attachment descriptor sent with INSERT-from-stage requests.
Go maps are embedded as association lists in literal order; only
key lookup is observed. -/
structure StageAttachmentConfig where
  location : String
  fileFormatOptions : List (String × String)
  copyOptions : List (String × String)
deriving DecidableEq, Repr

/-- Body of `POST /v1/query`. -/
structure QueryRequest where
  sql : String
  pagination : Option PaginationConfig
  session : Option String
  stageAttachment : Option StageAttachmentConfig := none
deriving DecidableEq, Repr

/-- `StageLocation`: a named stage plus a path inside it. -/
structure StageLocation where
  name : String
  path : String
deriving DecidableEq, Repr

/-- `(*StageLocation).String()`: `fmt.Sprintf("@%s/%s", Name, Path)`. -/
def StageLocation.render (sl : StageLocation) : String :=
  "@" ++ sl.name ++ "/" ++ sl.path

/-! ## Client state -/

/-- A result cursor (`*nextRows`); only whether `Close` was called on it
is observed here. -/
structure Cursor where
  closed : Bool
deriving DecidableEq, Repr

/-- Two's-complement wrap of an integer into the `int64` range, as Go
arithmetic on `int64` behaves. -/
def wrap64 (x : Int) : Int :=
  (x + 2 ^ 63) % 2 ^ 64 - 2 ^ 63

/-- The mutable fields of `APIClient` that the embedded methods read or
write, plus the configuration fields they consult.  The decoded
`sessionState` mirror (`json.Unmarshal` at line 372, error ignored) is a
cache of `sessionStateRaw` and is not consumed by any embedded method, so
only the raw payload is carried. -/
structure ClientState where
  sessionID : String
  querySeq : Int
  rows : Option Cursor
  sessionStateRaw : Option String
  user : String
  password : String
  hasAccessTokenLoader : Bool
  tenant : String
  warehouse : String
  waitTimeSeconds : Int
  maxRowsInBuffer : Int
  maxRowsPerPage : Int
  presignedURLDisabled : Bool
  emptyFieldAs : String
deriving DecidableEq, Repr

/-- `(*APIClient).NextQuery`: close any still-open cursor, then increment
the query sequence (`int64` addition wraps). -/
def NextQuery (c : ClientState) : ClientState :=
  let rows := match c.rows with
    | some cur => some { cur with closed := true }
    | none => none
  { c with rows := rows, querySeq := wrap64 (c.querySeq + 1) }

/-- `(*APIClient).GetQueryID`: `fmt.Sprintf("%s.%d", SessionID, QuerySeq)`. -/
def GetQueryID (c : ClientState) : String :=
  c.sessionID ++ "." ++ toString c.querySeq

/-- `(*APIClient).getPagenationConfig`: nil when every field is zero. -/
def getPagenationConfig (c : ClientState) : Option PaginationConfig :=
  if c.maxRowsPerPage == 0 && c.maxRowsInBuffer == 0 && c.waitTimeSeconds == 0 then
    none
  else
    some { maxRowsPerPage := c.maxRowsPerPage
           maxRowsInBuffer := c.maxRowsInBuffer
           waitTime := c.waitTimeSeconds }

/-- `NewDefaultCSVFormatOptions` (map literal, embedded in source order). -/
def NewDefaultCSVFormatOptions (c : ClientState) : List (String × String) :=
  [("type", "CSV"),
   ("field_delimiter", ","),
   ("record_delimiter", "\n"),
   ("skip_header", "0"),
   ("empty_field_as", c.emptyFieldAs)]

/-- `NewDefaultCopyOptions`. -/
def NewDefaultCopyOptions (_c : ClientState) : List (String × String) :=
  [("purge", "true")]

/-- `(*APIClient).applySessionState`: overwrite the stored raw session
payload whenever the response carries one, independent of any in-band
query error in the same response. -/
def applySessionState (c : ClientState) (response : Option QueryResponse) : ClientState :=
  match response with
  | none => c
  | some r =>
    match r.session with
    | none => c
    | some s => { c with sessionStateRaw := some s }

/-! ## Retry policy (`DoRetry`, lines 415-445)

`retry.Do` from `avast/retry-go` with `FixedDelay`, `Attempts(n)` and a
`RetryIf` predicate: an attempt is retried iff the predicate accepts its
error and attempts remain; between retried attempts it sleeps the fixed
delay.  The embedding records the number of calls made, the list of
sleeps (in time-units = seconds), and the error the caller sees (the
last attempt's error; `none` on success). -/

/-- The `RequestType` tag (`Query`, `Page`, `Final`, `Kill`). -/
inductive RequestType where
  | Query
  | Page
  | Final
  | Kill
deriving DecidableEq, Repr

/-- The `retry.RetryIf` closure built inside `DoRetry` (lines 426-440):
nil error is not retried; `context.Canceled` is never retried; the
transport-send / response-read sentinels and proxy errors are retried;
for `Query` requests an error whose text contains the
warehouse-provisioning marker is retried; everything else is terminal. -/
def retryIf (t : RequestType) (err : Option GoErr) : Bool :=
  match err with
  | none => false
  | some e =>
    if isCanceledErr e then false
    else if isDoRequestErr e || isReadResponseErr e || IsProxyErr e then true
    else if t == .Query && goStringsContains (errText e) ProvisionWarehouseTimeout then true
    else false

/-- Trace of one `retry.Do` run: how many times the attempt function was
called, the sleeps performed between attempts, and the surfaced result. -/
structure RetryTrace where
  calls : Nat
  delays : List Nat
  result : Option GoErr
deriving DecidableEq, Repr

/-- One step of `retry.Do`: `f i` is attempt `i`'s error (`none` =
success).  With more than one attempt left, a failure accepted by
`shouldRetry` sleeps `delay` and recurses; a rejected failure, a success,
or the final attempt ends the loop. -/
def retryGoAux (shouldRetry : Option GoErr → Bool) (delay : Nat)
    (f : Nat → Option GoErr) (i : Nat) : Nat → RetryTrace
  | 0 => { calls := 0, delays := [], result := none }
  | 1 => { calls := 1, delays := [], result := f i }
  | n + 2 =>
    match f i with
    | none => { calls := 1, delays := [], result := none }
    | some e =>
      if shouldRetry (some e) then
        let rest := retryGoAux shouldRetry delay f (i + 1) (n + 1)
        { calls := rest.calls + 1, delays := delay :: rest.delays, result := rest.result }
      else
        { calls := 1, delays := [], result := some e }

/-- `(*APIClient).DoRetry`: class `Query` uses delay 2 and 5 attempts,
every other class delay 1 and 3 attempts, fixed-delay schedule. -/
def DoRetry (t : RequestType) (f : Nat → Option GoErr) : RetryTrace :=
  let delay : Nat := if t == .Query then 2 else 1
  let attempts : Nat := if t == .Query then 5 else 3
  retryGoAux (retryIf t) delay f 0 attempts

/-! ## Header construction (`makeHeaders`, lines 294-331)

Headers are embedded as association lists; `http.Header.Set` replaces the
value under its key.  The header-name constants and the driver `version`
are declared in sibling files; their exact strings are irrelevant to the
claims, so representative values stand in (marked modelled). -/

/-- Modelled from the spec: driver version constant from a sibling file. -/
def version : String := "dev"

/-- Modelled from the spec: header-name constant `WarehouseRoute`. -/
def WarehouseRoute : String := "X-DATABEND-ROUTE"

/-- Modelled from the spec: header-name constant `UserAgent`. -/
def UserAgent : String := "User-Agent"

/-- Modelled from the spec: header-name constant `DatabendTenantHeader`. -/
def DatabendTenantHeader : String := "X-DATABEND-TENANT"

/-- Modelled from the spec: header-name constant `DatabendWarehouseHeader`. -/
def DatabendWarehouseHeader : String := "X-DATABEND-WAREHOUSE"

/-- Modelled from the spec: header-name constant `DatabendQueryIDHeader`. -/
def DatabendQueryIDHeader : String := "X-DATABEND-QUERY-ID"

/-- Modelled from the spec: header-name constant `Authorization`. -/
def Authorization : String := "Authorization"

/-- `http.Header.Set`: replace the value stored under a key. -/
def setHeader (hs : List (String × String)) (k v : String) : List (String × String) :=
  match hs with
  | [] => [(k, v)]
  | (k1, v1) :: rest => if k1 == k then (k, v) :: rest else (k1, v1) :: setHeader rest k v

/-- `http.Header.Get`. -/
def getHeader (hs : List (String × String)) (k : String) : Option String :=
  (hs.find? (fun kv => kv.1 == k)).map (fun kv => kv.2)

/-- The authentication modes of `authMethod`. -/
inductive AuthMode where
  | userPassword
  | accessToken
  | noAuth
deriving DecidableEq, Repr

/-- `(*APIClient).authMethod`: user/password wins over an access-token
loader; with neither, the empty method. -/
def authMethod (c : ClientState) : AuthMode :=
  if c.user != "" then .userPassword
  else if c.hasAccessTokenLoader then .accessToken
  else .noAuth

/-- Standard base64 alphabet. -/
def base64Alphabet : List Char :=
  "ABCDEFGHIJKLMNOPQRSTUVWXYZabcdefghijklmnopqrstuvwxyz0123456789+/".toList

/-- One alphabet character. -/
def base64Char (n : Nat) : Char :=
  base64Alphabet.getD n 'A'

/-- Encode bytes three at a time into four base64 characters with padding. -/
def base64Chunks : List Nat → List Char
  | b1 :: b2 :: b3 :: rest =>
    base64Char (b1 / 4) :: base64Char (b1 % 4 * 16 + b2 / 16) ::
      base64Char (b2 % 16 * 4 + b3 / 64) :: base64Char (b3 % 64) :: base64Chunks rest
  | [b1, b2] => [base64Char (b1 / 4), base64Char (b1 % 4 * 16 + b2 / 16),
      base64Char (b2 % 16 * 4), '=']
  | [b1] => [base64Char (b1 / 4), base64Char (b1 % 4 * 16), '=', '=']
  | [] => []

/-- `encode(name, key)`: base64 of `name + ":" + key`. -/
def encode (name key : String) : String :=
  String.mk (base64Chunks (((name ++ ":" ++ key).toUTF8).toList.map (fun b => b.toNat)))

/-- `(*APIClient).makeHeaders`.  `ctxUserAgent` / `ctxQueryID` are the
optional values carried by the call context; `loadedToken` is the result
of `accessTokenLoader.LoadAccessToken(ctx, false)` (`none` = load error).
Note lines 297-302 choose a user-agent that embeds the context tag, and
line 303 then unconditionally overwrites it with the plain
`databend-go/<version>` string; the embedding keeps both writes. -/
def makeHeaders (c : ClientState) (ctxUserAgent ctxQueryID : Option String)
    (loadedToken : Option String) : Except GoErr (List (String × String)) :=
  let hs : List (String × String) := []
  let hs := setHeader hs WarehouseRoute "warehouse"
  let hs := match ctxUserAgent with
    | some ua => setHeader hs UserAgent (version ++ "/databend-go/" ++ ua)
    | none => setHeader hs UserAgent ("databend-go/" ++ version)
  let hs := setHeader hs UserAgent ("databend-go/" ++ version)
  let hs := if c.tenant != "" then setHeader hs DatabendTenantHeader c.tenant else hs
  let hs := if c.warehouse != "" then setHeader hs DatabendWarehouseHeader c.warehouse else hs
  let hs := match ctxQueryID with
    | some qid => setHeader hs DatabendQueryIDHeader qid
    | none => setHeader hs DatabendQueryIDHeader (GetQueryID c)
  match authMethod c with
  | .userPassword => .ok (setHeader hs Authorization ("Basic " ++ encode c.user c.password))
  | .accessToken =>
    match loadedToken with
    | some tok => .ok (setHeader hs Authorization ("Bearer " ++ tok))
    | none => .error (.wrap "failed to load access token" (.generic "load failed"))
  | .noAuth => .error (.generic "no user password or access token")

/-! ## Request execution (`doRequest`, lines 196-270)

The HTTP world is a parameter: `outcome i` is what attempt `i` of the
round trip produces (a transport-send failure, a body-read failure, or a
status/content-type/body triple), `tokenLoadOk i` is whether the
non-forced token load inside `makeHeaders` succeeds on attempt `i`, and
`decodeOk body` is whether `json.Unmarshal` of a 200 body into the
caller's result shape succeeds.  The trace records the surfaced result,
the number of HTTP attempts actually sent, and the number of forced token
reloads (`LoadAccessToken(…, true)`). -/

/-- What one HTTP round trip produces. -/
inductive AttemptOutcome where
  | sendFail (msg : String)
  | readFail (msg : String)
  | http (status : Nat) (jsonContentType : Bool) (body : String)
deriving DecidableEq, Repr

deriving instance DecidableEq for Except

/-- Observable trace of one `doRequest` call. -/
structure DoReqTrace where
  result : Except GoErr Unit
  attemptsMade : Nat
  forcedReloads : Nat
deriving DecidableEq, Repr

/-- The attempt loop of `doRequest` (lines 218-268), structurally
recursive on the number of loop iterations still allowed (`doRequest`
enters with `i = 1` and `maxRetries = 2` iterations available).  A 401
under token auth with `i < maxRetries` forces one token reload and
continues; every other branch returns.  Falling out of the loop is the
`errors.Errorf("failed to do request after %d retries", …)` return at
line 269. -/
def doRequestAux (auth : AuthMode) (outcome : Nat → AttemptOutcome)
    (tokenLoadOk : Nat → Bool) (decodeOk : String → Bool) (wantResp : Bool)
    (i : Nat) : Nat → DoReqTrace
  | 0 => { result := .error (.generic "failed to do request after 2 retries")
           attemptsMade := 0, forcedReloads := 0 }
  | remaining + 1 =>
    if auth == .noAuth then
      { result := .error (.wrap "failed to make request headers"
          (.generic "no user password or access token"))
        attemptsMade := 0, forcedReloads := 0 }
    else if auth == .accessToken && !(tokenLoadOk i) then
      { result := .error (.wrap "failed to make request headers"
          (.wrap "failed to load access token" (.generic "load failed")))
        attemptsMade := 0, forcedReloads := 0 }
    else
      match outcome i with
      | .sendFail m =>
        { result := .error (.doRequestFail m), attemptsMade := 1, forcedReloads := 0 }
      | .readFail m =>
        { result := .error (.readResponseFail m), attemptsMade := 1, forcedReloads := 0 }
      | .http status jsonCT body =>
        if status == 401 then
          if auth == .accessToken && remaining ≥ 1 then
            let rest := doRequestAux auth outcome tokenLoadOk decodeOk wantResp (i + 1) remaining
            { result := rest.result
              attemptsMade := rest.attemptsMade + 1
              forcedReloads := rest.forcedReloads + 1 }
          else
            { result := .error (.apiError "authorization failed" status body)
              attemptsMade := 1, forcedReloads := 0 }
        else if status ≥ 500 then
          { result := .error (.apiError "please retry again later" status body)
            attemptsMade := 1, forcedReloads := 0 }
        else if status ≥ 400 then
          { result := .error (.apiError "please check your arguments" status body)
            attemptsMade := 1, forcedReloads := 0 }
        else if status != 200 then
          { result := .error (.apiError "unexpected HTTP StatusCode" status body)
            attemptsMade := 1, forcedReloads := 0 }
        else if wantResp && jsonCT && !(decodeOk body) then
          { result := .error (.wrap "failed to unmarshal response body" (.generic "json"))
            attemptsMade := 1, forcedReloads := 0 }
        else
          { result := .ok (), attemptsMade := 1, forcedReloads := 0 }

/-- `(*APIClient).doRequest`: the loop runs `i = 1` to `maxRetries = 2`. -/
def doRequest (auth : AuthMode) (outcome : Nat → AttemptOutcome)
    (tokenLoadOk : Nat → Bool) (decodeOk : String → Bool) (wantResp : Bool) : DoReqTrace :=
  doRequestAux auth outcome tokenLoadOk decodeOk wantResp 1 2

/-! ## Query lifecycle (lines 375-496)

The network round trip (`DoRetry` around `doRequest`, plus the JSON
decode into the shared response variable) is abstracted as an oracle:
for `startQueryRequest` a function from the built request to the decoded
response or the surfaced error, for `PollQuery` the pair of the retry
loop's error and the final content of the shared `result` variable
(the zero-value response when nothing was decoded).  `trackStats` only
invokes an external callback and does not change client state, so it has
no footprint in the embedding. -/

/-- `(*APIClient).startQueryRequest` (lines 447-465): bump the sequence,
close the previous cursor, send, and on success apply session state
(even when the response carries an in-band query error). -/
def startQueryRequest (c : ClientState)
    (network : QueryRequest → Except GoErr QueryResponse)
    (request : QueryRequest) : ClientState × Except GoErr QueryResponse :=
  let c1 := NextQuery c
  match network request with
  | .error e => (c1, .error (.wrap "failed to do query request" e))
  | .ok resp => (applySessionState c1 (some resp), .ok resp)

/-- `buildQuery` (lines 390-399): with a leading non-nil parameter the
query text is interpolated (`interpolateParams` lives in a sibling file
and is a parameter here), otherwise the text is passed through. -/
def buildQuery (query : String) (params : List (Option String))
    (interpolate : String → List (Option String) → Except String String) :
    Except GoErr String :=
  match params with
  | p :: _ =>
    if p.isSome then
      match interpolate query params with
      | .ok result => .ok result
      | .error e => .error (.wrap "buildRequest: failed to interpolate params" (.generic e))
    else .ok query
  | [] => .ok query

/-- `(*APIClient).StartQuery` (lines 467-478): build the SQL text and the
request `{SQL, Pagination, Session}` and submit it. -/
def StartQuery (c : ClientState) (query : String) (args : List (Option String))
    (interpolate : String → List (Option String) → Except String String)
    (network : QueryRequest → Except GoErr QueryResponse) :
    ClientState × Except GoErr QueryResponse :=
  match buildQuery query args interpolate with
  | .error e => (c, .error e)
  | .ok q =>
    let request : QueryRequest :=
      { sql := q
        pagination := getPagenationConfig c
        session := c.sessionStateRaw }
    startQueryRequest c network request

/-- `(*APIClient).PollQuery` (lines 480-496): run the page fetch, then
apply session state from the shared `result` variable whether or not the
fetch failed, and only then surface any error. -/
def PollQuery (c : ClientState) (retryErr : Option GoErr) (result : QueryResponse) :
    ClientState × Except GoErr QueryResponse :=
  let c1 := applySessionState c (some result)
  match retryErr with
  | some e => (c1, .error (.wrap "failed to query page" e))
  | none => (c1, .ok result)

/-! ## Poll loop (`PollUntilQueryEnd`, lines 375-388)

The Go loop body reads

  for !resp.ReadFinished() -x-
      data := resp.Data
      resp, err := c.PollQuery(ctx, resp.NextURI)
      ...

The short variable declaration `resp, err :=` at line 378 declares a NEW
`resp` scoped to the loop body, shadowing the function parameter, so the
loop condition and the fetched `resp.NextURI` always refer to the
ORIGINAL response; the embedding reproduces this exactly.  `poll uri`
stands for `c.PollQuery(ctx, uri)`'s returned response or error; the
`resp.Data = append(data, resp.Data...)` write mutates the inner,
discarded response and is unobservable.  A fuel bound makes the loop a
total function; `fuelOut` marks a run that had not returned after `fuel`
iterations.  The second component lists the URIs fetched, in order. -/

/-- How a `PollUntilQueryEnd` run ended within the given fuel. -/
inductive PollResult where
  | done (r : QueryResponse)
  | failed (e : GoErr)
  | fuelOut
deriving DecidableEq, Repr

/-- `(*APIClient).PollUntilQueryEnd`, embedded with the line-378
shadowing: the recursive call keeps the outer `resp` unchanged. -/
def PollUntilQueryEnd (poll : String → Except GoErr QueryResponse)
    (resp : QueryResponse) : Nat → PollResult × List String
  | 0 =>
    if resp.ReadFinished then (.done resp, []) else (.fuelOut, [])
  | fuel + 1 =>
    if resp.ReadFinished then (.done resp, [])
    else
      match poll resp.nextURI with
      | .error e => (.failed e, [resp.nextURI])
      | .ok inner =>
        match inner.error with
        | some qe => (.failed (.wrap "query page has error" (.queryErr qe)), [resp.nextURI])
        | none =>
          let rest := PollUntilQueryEnd poll resp fuel
          (rest.1, resp.nextURI :: rest.2)

/-! ## Cleanup (`KillQuery` / `CloseQuery`, lines 498-520)

Both guard on a non-nil response carrying a non-empty URI, wrap the call
in a fresh 30-second timeout context, run it under `DoRetry` with the
matching class, discard the retry result with `_ =`, and return `nil`
unconditionally.  `f i` is attempt `i`'s error inside the retry loop. -/

/-- Observable trace of one cleanup call. -/
structure CleanupTrace where
  callMade : Bool
  timeoutSecs : Option Nat
  retried : Option RetryTrace
  returned : Option GoErr
deriving DecidableEq, Repr

/-- `(*APIClient).KillQuery`. -/
def KillQuery (response : Option QueryResponse) (f : Nat → Option GoErr) : CleanupTrace :=
  match response with
  | some r =>
    if r.killURI != "" then
      { callMade := true, timeoutSecs := some 30
        retried := some (DoRetry .Kill f), returned := none }
    else
      { callMade := false, timeoutSecs := none, retried := none, returned := none }
  | none =>
    { callMade := false, timeoutSecs := none, retried := none, returned := none }

/-- `(*APIClient).CloseQuery`. -/
def CloseQuery (response : Option QueryResponse) (f : Nat → Option GoErr) : CleanupTrace :=
  match response with
  | some r =>
    if r.finalURI != "" then
      { callMade := true, timeoutSecs := some 30
        retried := some (DoRetry .Final f), returned := none }
    else
      { callMade := false, timeoutSecs := none, retried := none, returned := none }
  | none =>
    { callMade := false, timeoutSecs := none, retried := none, returned := none }

/-! ## Insert with stage (`InsertWithStage`, lines 522-553) -/

/-- The request-building half of `InsertWithStage`: nil stage is an
error; nil format / copy options are replaced by the CSV / purge
defaults; the stage attachment renders the location as `@name/path`. -/
def insertWithStageRequest (c : ClientState) (sql : String)
    (stage : Option StageLocation)
    (fileFormatOptions copyOptions : Option (List (String × String))) :
    Except GoErr QueryRequest :=
  match stage with
  | none => .error (.generic "stage location required for insert with stage")
  | some st =>
    let ffo := match fileFormatOptions with
      | none => NewDefaultCSVFormatOptions c
      | some m => m
    let co := match copyOptions with
      | none => NewDefaultCopyOptions c
      | some m => m
    .ok { sql := sql
          pagination := getPagenationConfig c
          session := c.sessionStateRaw
          stageAttachment := some
            { location := st.render
              fileFormatOptions := ffo
              copyOptions := co } }

/-- `(*APIClient).InsertWithStage`: build the request, submit it through
`startQueryRequest`, surface an in-band error, else poll to completion
(the deferred `CloseQuery` is best-effort and leaves no trace here). -/
def InsertWithStage (c : ClientState)
    (network : QueryRequest → Except GoErr QueryResponse)
    (poll : String → Except GoErr QueryResponse) (fuel : Nat) (sql : String)
    (stage : Option StageLocation)
    (fileFormatOptions copyOptions : Option (List (String × String))) :
    ClientState × Except GoErr PollResult :=
  match insertWithStageRequest c sql stage fileFormatOptions copyOptions with
  | .error e => (c, .error e)
  | .ok request =>
    match startQueryRequest c network request with
    | (c1, .error e) => (c1, .error e)
    | (c1, .ok resp) =>
      match resp.error with
      | some qe => (c1, .error (.wrap "query error:" (.queryErr qe)))
      | none => (c1, .ok (PollUntilQueryEnd poll resp fuel).1)

/-! ## Presigned upload (`GetPresignedURL`, lines 563-585)

After `QuerySync` succeeds, the rows of the response are inspected: the
guard rejects an empty row set or a first row shorter than two columns,
then `Data[0][0]`, `Data[0][2]` and `Data[0][1]` are read.  Go slice
indexing panics when out of range; the embedding returns the distinct
`panicOOB` outcome there.  `parseHeaders` stands for `json.Unmarshal` of
the header-map column. -/

/-- The observable outcomes of the row-extraction step. -/
inductive PresignOutcome where
  | invalidResponse
  | panicOOB
  | headerDecodeErr
  | ok (method : String) (headers : List (String × String)) (url : String)
deriving DecidableEq, Repr

/-- The field reads of `GetPresignedURL` on a successful query response's
row set, including the guard at line 570. -/
def getPresignedFromRows (parseHeaders : String → Option (List (String × String)))
    (data : List (List String)) : PresignOutcome :=
  if data.length < 1 || (data.headD []).length < 2 then .invalidResponse
  else
    let row := data.headD []
    match row.get? 0, row.get? 2 with
    | some m, some u =>
      match row.get? 1 with
      | some h =>
        match parseHeaders h with
        | some hdrs => .ok m hdrs u
        | none => .headerDecodeErr
      | none => .panicOOB
    | _, _ => .panicOOB

/-! ## Concrete fixtures used by evaluation theorems and witnesses -/

/-- A baseline client: user/password auth, no cursor, defaults zeroed. -/
def baseClient : ClientState :=
  { sessionID := "sid"
    querySeq := 0
    rows := none
    sessionStateRaw := none
    user := "u"
    password := "p"
    hasAccessTokenLoader := false
    tenant := ""
    warehouse := ""
    waitTimeSeconds := 0
    maxRowsInBuffer := 0
    maxRowsPerPage := 0
    presignedURLDisabled := false
    emptyFieldAs := "" }

/-- An unfinished initial response pointing at continuation URI `u1`. -/
def unfinishedResp : QueryResponse := { nextURI := "u1" }

/-- A poll oracle whose every page is finished, error-free and carries one
row: the best-case server. -/
def cleanFinishedPage : String → Except GoErr QueryResponse :=
  fun _ => .ok { nextURI := "", data := [["row"]] }

/-- C1: the spec says a non-empty continuation URI is followed exactly
once and polling stops as soon as a finished (empty-continuation) page
arrives.  On the code, the short variable declaration at line 378 shadows
the loop variable, so the loop condition keeps testing the original
response and the SAME continuation URI `u1` is fetched on every
iteration: even though every fetched page is finished and error-free, two
iterations of fuel fetch `u1` twice and the loop has not terminated. -/
theorem pollUntilQueryEnd_refetches_same_uri :
    PollUntilQueryEnd cleanFinishedPage unfinishedResp 2 = (.fuelOut, ["u1", "u1"]) := by
  decide

/-- C4: the spec says every column index read by `GetPresignedURL` is in
bounds once the validation passed.  On the code, the guard only requires
two columns in the first row but the URL is read from column index 2: a
successful presign response whose first row is exactly
`["PUT", "h"]` passes the guard and the URL read is out of bounds (a Go
runtime panic), not the invalid-response error. -/
theorem getPresignedURL_reads_out_of_bounds :
    getPresignedFromRows (fun _ => some []) [["PUT", "h"]] = .panicOOB := by
  decide

/-- C5: the spec says a caller-supplied external agent tag from the call
context is embedded in the user-agent header.  On the code, the
conditional write at lines 297-302 does embed the tag, but line 303
unconditionally overwrites the header with the plain
`databend-go/<version>` string, so the tag `myapp` never reaches the
outgoing header. -/
theorem makeHeaders_drops_external_agent_tag :
    (makeHeaders baseClient (some "myapp") none none).map
        (fun hs => getHeader hs UserAgent)
      = .ok (some ("databend-go/" ++ version))
    ∧ goStringsContains ("databend-go/" ++ version) "myapp" = false := by
  constructor
  · decide
  · decide

/-! ## Retry-policy lemmas -/

/-- A first attempt whose error the predicate rejects ends the retry loop
at once, surfacing that error, with at least two attempts budgeted. -/
theorem retryGoAux_first_not_retried (sr : Option GoErr → Bool) (d : Nat)
    (f : Nat → Option GoErr) (i n : Nat) (e : GoErr)
    (hf : f i = some e) (hsr : sr (some e) = false) :
    retryGoAux sr d f i (n + 2) = { calls := 1, delays := [], result := some e } := by
  simp [retryGoAux, hf, hsr]

/-- When every attempt fails with an error the predicate accepts, the
loop runs through its whole budget of `n + 1` attempts, sleeping the
fixed delay between consecutive attempts, and surfaces the last error. -/
theorem retryGoAux_all_attempts_fail (sr : Option GoErr → Bool) (d : Nat)
    (f : Nat → Option GoErr)
    (hfail : ∀ k, (f k).isSome)
    (hretry : ∀ k, sr (f k) = true) :
    ∀ n i, retryGoAux sr d f i (n + 1)
      = { calls := n + 1, delays := List.replicate n d, result := f (i + n) } := by
  intro n
  induction n with
  | zero =>
    intro i
    simp [retryGoAux]
  | succ m ih =>
    intro i
    obtain ⟨e, he⟩ : ∃ e, f i = some e := Option.isSome_iff_exists.mp (hfail i)
    have hsr : sr (some e) = true := by rw [← he]; exact hretry i
    have harith : i + 1 + m = i + (m + 1) := by omega
    show retryGoAux sr d f i (m + 2) = _
    simp [retryGoAux, he, hsr, ih (i + 1), harith, List.replicate_succ]

/-- C2: `DoRetry` retries an attempt's error exactly when it is a
transport-send failure, a response-read failure, or, for the `Query`
class only, an error whose text contains the warehouse-provisioning
marker; an error matching `context.Canceled` is never retried, and a
rejected error ends the loop after the single attempt that produced it,
surfaced unchanged. -/
theorem DoRetry_retry_classification (t : RequestType) (e : GoErr)
    (f : Nat → Option GoErr) (hf : f 0 = some e) :
    (retryIf t (some e) = true ↔
      (isCanceledErr e = false ∧
        (isDoRequestErr e = true ∨ isReadResponseErr e = true ∨
          (t = .Query ∧ goStringsContains (errText e) ProvisionWarehouseTimeout = true))))
    ∧ (retryIf t (some e) = false →
        DoRetry t f = { calls := 1, delays := [], result := some e }) := by
  constructor
  · unfold retryIf IsProxyErr
    cases hc : isCanceledErr e <;>
      cases hd : isDoRequestErr e <;>
        cases hr : isReadResponseErr e <;>
          cases hp : goStringsContains (errText e) ProvisionWarehouseTimeout <;>
            cases t <;> simp_all
  · intro hfalse
    cases t
    · exact retryGoAux_first_not_retried (retryIf .Query) 2 f 0 3 e hf hfalse
    · exact retryGoAux_first_not_retried (retryIf .Page) 1 f 0 1 e hf hfalse
    · exact retryGoAux_first_not_retried (retryIf .Final) 1 f 0 1 e hf hfalse
    · exact retryGoAux_first_not_retried (retryIf .Kill) 1 f 0 1 e hf hfalse

/-- An attempt function failing with a terminal API error on every call. -/
def alwaysApiErr : Nat → Option GoErr :=
  fun _ => some (.generic "nope")

/-- Witness for C2 at the `Page` class and a generic terminal error. -/
theorem DoRetry_retry_classification_witness :
    ((retryIf .Page (some (.generic "nope")) = true ↔
      (isCanceledErr (.generic "nope") = false ∧
        (isDoRequestErr (.generic "nope") = true ∨
          isReadResponseErr (.generic "nope") = true ∨
          (RequestType.Page = .Query ∧
            goStringsContains (errText (.generic "nope")) ProvisionWarehouseTimeout = true))))
    ∧ (retryIf .Page (some (.generic "nope")) = false →
        DoRetry .Page alwaysApiErr
          = { calls := 1, delays := [], result := some (.generic "nope") })) :=
  DoRetry_retry_classification .Page (.generic "nope") alwaysApiErr rfl

/-- C7: with a transport-send failure on every attempt, a `Query`-class
operation makes exactly 5 attempts separated by 4 fixed sleeps of 2
time-units, while `Page`, `Final` and `Kill` class operations make
exactly 3 attempts separated by 2 fixed sleeps of 1 time-unit; in all
cases the last attempt's failure is surfaced. -/
theorem DoRetry_attempt_budget (f : Nat → Option GoErr)
    (hfail : ∀ k, ∃ m, f k = some (GoErr.doRequestFail m)) :
    DoRetry .Query f = { calls := 5, delays := List.replicate 4 2, result := f 4 }
    ∧ DoRetry .Page f = { calls := 3, delays := List.replicate 2 1, result := f 2 }
    ∧ DoRetry .Final f = { calls := 3, delays := List.replicate 2 1, result := f 2 }
    ∧ DoRetry .Kill f = { calls := 3, delays := List.replicate 2 1, result := f 2 } := by
  have hfail' : ∀ k, (f k).isSome := by
    intro k
    obtain ⟨m, hm⟩ := hfail k
    simp [hm]
  have hretry : ∀ t k, retryIf t (f k) = true := by
    intro t k
    obtain ⟨m, hm⟩ := hfail k
    simp [hm, retryIf, isCanceledErr, isDoRequestErr]
  exact ⟨retryGoAux_all_attempts_fail (retryIf .Query) 2 f hfail' (hretry .Query) 4 0,
    retryGoAux_all_attempts_fail (retryIf .Page) 1 f hfail' (hretry .Page) 2 0,
    retryGoAux_all_attempts_fail (retryIf .Final) 1 f hfail' (hretry .Final) 2 0,
    retryGoAux_all_attempts_fail (retryIf .Kill) 1 f hfail' (hretry .Kill) 2 0⟩

/-- An attempt function failing with a transport-send error on every call. -/
def alwaysSendFail : Nat → Option GoErr :=
  fun _ => some (.doRequestFail "boom")

/-- Witness for C7 with a concrete always-failing transport. -/
theorem DoRetry_attempt_budget_witness :
    DoRetry .Query alwaysSendFail
      = { calls := 5, delays := List.replicate 4 2
          result := some (.doRequestFail "boom") }
    ∧ DoRetry .Page alwaysSendFail
      = { calls := 3, delays := List.replicate 2 1
          result := some (.doRequestFail "boom") }
    ∧ DoRetry .Final alwaysSendFail
      = { calls := 3, delays := List.replicate 2 1
          result := some (.doRequestFail "boom") }
    ∧ DoRetry .Kill alwaysSendFail
      = { calls := 3, delays := List.replicate 2 1
          result := some (.doRequestFail "boom") } :=
  DoRetry_attempt_budget alwaysSendFail (fun _ => ⟨"boom", rfl⟩)

/-! ## Session-state propagation (C3) -/

/-- C3: after a `startQueryRequest` / `StartQuery` / `PollQuery` call
whose response carries a session payload, the client's stored raw session
state equals that payload — wholesale replacement, with no condition on
the response's in-band `error` field (the response binders range over
failed-query responses too), and for `PollQuery` even when the page fetch
itself surfaced an error. -/
theorem session_state_replaced_wholesale (c : ClientState)
    (network : QueryRequest → Except GoErr QueryResponse) (request : QueryRequest)
    (interp : String → List (Option String) → Except String String)
    (query : String) (retryErr : Option GoErr) (result resp : QueryResponse) (s : String)
    (hn : network request = .ok resp)
    (hq : network { sql := query, pagination := getPagenationConfig c, session := c.sessionStateRaw } = .ok resp)
    (hs : resp.session = some s)
    (hr : result.session = some s) :
    (startQueryRequest c network request).1.sessionStateRaw = some s
    ∧ (StartQuery c query [] interp network).1.sessionStateRaw = some s
    ∧ (PollQuery c retryErr result).1.sessionStateRaw = some s := by
  refine ⟨?_, ?_, ?_⟩
  · simp [startQueryRequest, hn, applySessionState, hs]
  · simp [StartQuery, buildQuery, startQueryRequest, hq, applySessionState, hs]
  · cases retryErr <;> simp [PollQuery, applySessionState, hr]

/-- A failed-query response (in-band error present) that still carries a
session payload — the failed-COMMIT shape the spec singles out. -/
def failedRespWithSession : QueryResponse :=
  { session := some "S2", error := some { code := 1, message := "commit failed" } }

/-- A network oracle that always answers with `failedRespWithSession`. -/
def netSession : QueryRequest → Except GoErr QueryResponse :=
  fun _ => .ok failedRespWithSession

/-- Identity interpolation oracle (no parameters are ever interpolated). -/
def interpId : String → List (Option String) → Except String String :=
  fun q _ => .ok q

/-- Witness for C3: a failed COMMIT whose response carries payload `S2`
leaves the stored session state at `S2` on all three paths. -/
theorem session_state_replaced_wholesale_witness :
    (startQueryRequest baseClient netSession
        { sql := "COMMIT", pagination := none, session := none }).1.sessionStateRaw
      = some "S2"
    ∧ (StartQuery baseClient "COMMIT" [] interpId netSession).1.sessionStateRaw = some "S2"
    ∧ (PollQuery baseClient (some (.generic "net down"))
        failedRespWithSession).1.sessionStateRaw = some "S2" :=
  session_state_replaced_wholesale baseClient netSession
    { sql := "COMMIT", pagination := none, session := none } interpId "COMMIT"
    (some (.generic "net down")) failedRespWithSession failedRespWithSession "S2"
    rfl rfl rfl rfl

/-! ## 401 handling under the two auth modes (C6) -/

/-- C6: a 401 on the first attempt under Bearer (access-token) auth
triggers exactly one forced token reload and exactly one further HTTP
attempt; when that second attempt is also a 401 no further retry happens
and the authorization failure carries the second status and raw body.
Under Basic (user/password) auth the first 401 is returned immediately as
an authorization failure carrying the status and raw body, with no
further attempt and no reload. -/
theorem doRequest_401_token_rotation (outcome : Nat → AttemptOutcome)
    (decodeOk : String → Bool) (wantResp : Bool) (j1 j2 : Bool) (b1 b2 : String)
    (h1 : outcome 1 = .http 401 j1 b1) (h2 : outcome 2 = .http 401 j2 b2) :
    doRequest .accessToken outcome (fun _ => true) decodeOk wantResp
      = { result := .error (.apiError "authorization failed" 401 b2)
          attemptsMade := 2, forcedReloads := 1 }
    ∧ doRequest .userPassword outcome (fun _ => true) decodeOk wantResp
      = { result := .error (.apiError "authorization failed" 401 b1)
          attemptsMade := 1, forcedReloads := 0 } := by
  constructor
  · show doRequestAux .accessToken outcome (fun _ => true) decodeOk wantResp 1 (1 + 1) = _
    simp [doRequestAux, h1, h2]
  · show doRequestAux .userPassword outcome (fun _ => true) decodeOk wantResp 1 (1 + 1) = _
    simp [doRequestAux, h1]

/-- A server that answers 401 on every attempt, with distinct bodies. -/
def always401 : Nat → AttemptOutcome :=
  fun i => .http 401 true (if i == 1 then "b1" else "b2")

/-- Witness for C6 against the always-401 server. -/
theorem doRequest_401_token_rotation_witness :
    doRequest .accessToken always401 (fun _ => true) (fun _ => true) true
      = { result := .error (.apiError "authorization failed" 401 "b2")
          attemptsMade := 2, forcedReloads := 1 }
    ∧ doRequest .userPassword always401 (fun _ => true) (fun _ => true) true
      = { result := .error (.apiError "authorization failed" 401 "b1")
          attemptsMade := 1, forcedReloads := 0 } :=
  doRequest_401_token_rotation always401 (fun _ => true) true true true "b1" "b2" rfl rfl

/-! ## Query sequence and cursor invalidation (C8) -/

/-- `applySessionState` touches only the stored session payload: the
sequence counter and the cursor are preserved. -/
theorem applySessionState_preserves_seq_rows (c : ClientState)
    (r : Option QueryResponse) :
    (applySessionState c r).querySeq = c.querySeq
    ∧ (applySessionState c r).rows = c.rows := by
  cases r with
  | none => simp [applySessionState]
  | some resp => cases hs : resp.session <;> simp [applySessionState, hs]

/-- A client whose `int64` query sequence sits at the maximum value. -/
def clientAtInt64Max : ClientState :=
  { baseClient with querySeq := 2 ^ 63 - 1 }

/-- C8 counterexample: the query sequence is a Go `int64`, and at
`2 ^ 63 - 1` the next submission wraps it to `-2 ^ 63`, so the numeric
suffix of the query id is not strictly increasing over every sequence of
submissions. -/
theorem nextQuery_wraps_at_int64_max :
    (NextQuery clientAtInt64Max).querySeq < clientAtInt64Max.querySeq := by
  decide

/-- C8 as amended: as long as the `int64` counter has not reached its
maximum, each submission increments the query-id's numeric suffix by one
(hence strictly increases it) and marks any still-open cursor of the
previous query closed; `startQueryRequest`, the entry point of every
submission, performs exactly this bump and close before anything else,
whatever the network outcome. -/
theorem nextQuery_strictly_increasing (c : ClientState) (cur : Cursor)
    (network : QueryRequest → Except GoErr QueryResponse) (request : QueryRequest)
    (hlo : -(2 ^ 63) ≤ c.querySeq) (hhi : c.querySeq < 2 ^ 63 - 1)
    (hrows : c.rows = some cur) :
    (NextQuery c).querySeq = c.querySeq + 1
    ∧ c.querySeq < (NextQuery c).querySeq
    ∧ GetQueryID (NextQuery c) = c.sessionID ++ "." ++ toString (c.querySeq + 1)
    ∧ (NextQuery c).rows = some { cur with closed := true }
    ∧ (startQueryRequest c network request).1.querySeq = c.querySeq + 1
    ∧ (startQueryRequest c network request).1.rows = some { cur with closed := true } := by
  have hwrap : wrap64 (c.querySeq + 1) = c.querySeq + 1 := by
    unfold wrap64
    omega
  have hnq : (NextQuery c).querySeq = c.querySeq + 1 := by
    simp [NextQuery, hwrap]
  have hnr : (NextQuery c).rows = some { cur with closed := true } := by
    simp [NextQuery, hrows]
  refine ⟨hnq, by omega, ?_, hnr, ?_, ?_⟩
  · simp [GetQueryID, hnq, NextQuery, hwrap]
  · cases hn : network request with
    | error e => simp [startQueryRequest, hn, hnq]
    | ok resp =>
      have := applySessionState_preserves_seq_rows (NextQuery c) (some resp)
      simp [startQueryRequest, hn, this.1, hnq]
  · cases hn : network request with
    | error e => simp [startQueryRequest, hn, hnr]
    | ok resp =>
      have := applySessionState_preserves_seq_rows (NextQuery c) (some resp)
      simp [startQueryRequest, hn, this.2, hnr]

/-- A client mid-session: sequence 7, a cursor still open. -/
def clientWithOpenCursor : ClientState :=
  { baseClient with querySeq := 7, rows := some { closed := false } }

/-- Witness for the amended C8 at sequence 7 with an open cursor. -/
theorem nextQuery_strictly_increasing_witness :
    (NextQuery clientWithOpenCursor).querySeq = clientWithOpenCursor.querySeq + 1
    ∧ clientWithOpenCursor.querySeq < (NextQuery clientWithOpenCursor).querySeq
    ∧ GetQueryID (NextQuery clientWithOpenCursor)
      = clientWithOpenCursor.sessionID ++ "." ++ toString (clientWithOpenCursor.querySeq + 1)
    ∧ (NextQuery clientWithOpenCursor).rows = some { closed := true }
    ∧ (startQueryRequest clientWithOpenCursor netSession
        { sql := "SELECT 1", pagination := none, session := none }).1.querySeq
      = clientWithOpenCursor.querySeq + 1
    ∧ (startQueryRequest clientWithOpenCursor netSession
        { sql := "SELECT 1", pagination := none, session := none }).1.rows
      = some { closed := true } :=
  nextQuery_strictly_increasing clientWithOpenCursor { closed := false } netSession
    { sql := "SELECT 1", pagination := none, session := none }
    (by decide) (by decide) rfl

/-! ## Best-effort cleanup (C9) -/

/-- The trace of a cleanup call that was skipped. -/
def noCleanupCall : CleanupTrace :=
  { callMade := false, timeoutSecs := none, retried := none, returned := none }

/-- C9: `KillQuery` and `CloseQuery` return no error for every input
response and every outcome of the retried HTTP call (`f` ranges over all
attempt behaviours, including failure of every attempt); the cleanup call
is made exactly when the response is present and carries the matching
URI, and it runs under its own 30-time-unit timeout through the `Kill` /
`Final` retry class. -/
theorem cleanup_swallows_errors (r r0 : QueryResponse)
    (response : Option QueryResponse) (f : Nat → Option GoErr)
    (hkill : r.killURI ≠ "") (hfinal : r.finalURI ≠ "")
    (hk0 : r0.killURI = "") (hf0 : r0.finalURI = "") :
    (KillQuery response f).returned = none
    ∧ (CloseQuery response f).returned = none
    ∧ KillQuery (some r) f
      = { callMade := true, timeoutSecs := some 30
          retried := some (DoRetry .Kill f), returned := none }
    ∧ CloseQuery (some r) f
      = { callMade := true, timeoutSecs := some 30
          retried := some (DoRetry .Final f), returned := none }
    ∧ KillQuery (some r0) f = noCleanupCall
    ∧ CloseQuery (some r0) f = noCleanupCall
    ∧ KillQuery none f = noCleanupCall
    ∧ CloseQuery none f = noCleanupCall := by
  refine ⟨?_, ?_, ?_, ?_, ?_, ?_, ?_, ?_⟩
  · cases response with
    | none => simp [KillQuery]
    | some rr =>
      by_cases h : rr.killURI = "" <;> simp [KillQuery, h]
  · cases response with
    | none => simp [CloseQuery]
    | some rr =>
      by_cases h : rr.finalURI = "" <;> simp [CloseQuery, h]
  · simp [KillQuery, hkill]
  · simp [CloseQuery, hfinal]
  · simp [KillQuery, hk0, noCleanupCall]
  · simp [CloseQuery, hf0, noCleanupCall]
  · simp [KillQuery, noCleanupCall]
  · simp [CloseQuery, noCleanupCall]

/-- A finished response that carries both cleanup URIs. -/
def respWithCleanupURIs : QueryResponse :=
  { finalURI := "fin", killURI := "kil" }

/-- Witness for C9: both URIs present, every retry attempt failing. -/
theorem cleanup_swallows_errors_witness :
    (KillQuery (some respWithCleanupURIs) alwaysSendFail).returned = none
    ∧ (CloseQuery (some respWithCleanupURIs) alwaysSendFail).returned = none
    ∧ KillQuery (some respWithCleanupURIs) alwaysSendFail
      = { callMade := true, timeoutSecs := some 30
          retried := some (DoRetry .Kill alwaysSendFail), returned := none }
    ∧ CloseQuery (some respWithCleanupURIs) alwaysSendFail
      = { callMade := true, timeoutSecs := some 30
          retried := some (DoRetry .Final alwaysSendFail), returned := none }
    ∧ KillQuery (some { }) alwaysSendFail = noCleanupCall
    ∧ CloseQuery (some { }) alwaysSendFail = noCleanupCall
    ∧ KillQuery none alwaysSendFail = noCleanupCall
    ∧ CloseQuery none alwaysSendFail = noCleanupCall :=
  cleanup_swallows_errors respWithCleanupURIs { } (some respWithCleanupURIs) alwaysSendFail
    (by decide) (by decide) rfl rfl

/-! ## Insert-with-stage default blocks (C10) -/

/-- C10: with a non-nil stage, a nil `fileFormatOptions` makes the built
request's stage attachment carry the default CSV format block
(`type=CSV`, `field_delimiter=","`, `record_delimiter="\n"`,
`skip_header="0"`, plus the configured empty-field substitute), a nil
`copyOptions` makes it carry a copy block with `purge=true`, each default
applied independently of the other argument, and caller-supplied non-nil
maps are placed in the request unchanged. -/
theorem InsertWithStage_default_blocks (c : ClientState) (sql : String)
    (st : StageLocation) (m mco : List (String × String)) :
    (∃ att, insertWithStageRequest c sql (some st) none none
        = .ok { sql := sql, pagination := getPagenationConfig c, session := c.sessionStateRaw, stageAttachment := some att }
      ∧ att.location = st.render
      ∧ List.lookup "type" att.fileFormatOptions = some "CSV"
      ∧ List.lookup "field_delimiter" att.fileFormatOptions = some ","
      ∧ List.lookup "record_delimiter" att.fileFormatOptions = some "\n"
      ∧ List.lookup "skip_header" att.fileFormatOptions = some "0"
      ∧ List.lookup "empty_field_as" att.fileFormatOptions = some c.emptyFieldAs
      ∧ List.lookup "purge" att.copyOptions = some "true")
    ∧ insertWithStageRequest c sql (some st) (some m) (some mco)
      = .ok { sql := sql, pagination := getPagenationConfig c, session := c.sessionStateRaw, stageAttachment := some { location := st.render, fileFormatOptions := m, copyOptions := mco } }
    ∧ (∃ att, insertWithStageRequest c sql (some st) none (some mco)
        = .ok { sql := sql, pagination := getPagenationConfig c, session := c.sessionStateRaw, stageAttachment := some att }
      ∧ List.lookup "type" att.fileFormatOptions = some "CSV"
      ∧ List.lookup "field_delimiter" att.fileFormatOptions = some ","
      ∧ List.lookup "record_delimiter" att.fileFormatOptions = some "\n"
      ∧ List.lookup "skip_header" att.fileFormatOptions = some "0"
      ∧ att.copyOptions = mco)
    ∧ (∃ att, insertWithStageRequest c sql (some st) (some m) none
        = .ok { sql := sql, pagination := getPagenationConfig c, session := c.sessionStateRaw, stageAttachment := some att }
      ∧ att.fileFormatOptions = m
      ∧ List.lookup "purge" att.copyOptions = some "true") := by
  refine ⟨⟨{ location := st.render
             fileFormatOptions := NewDefaultCSVFormatOptions c
             copyOptions := NewDefaultCopyOptions c }, ?_⟩, ?_, ?_, ?_⟩
  · simp [insertWithStageRequest, NewDefaultCSVFormatOptions, NewDefaultCopyOptions,
      List.lookup]
  · simp [insertWithStageRequest]
  · refine ⟨{ location := st.render
              fileFormatOptions := NewDefaultCSVFormatOptions c
              copyOptions := mco }, ?_⟩
    simp [insertWithStageRequest, NewDefaultCSVFormatOptions, List.lookup]
  · refine ⟨{ location := st.render
              fileFormatOptions := m
              copyOptions := NewDefaultCopyOptions c }, ?_⟩
    simp [insertWithStageRequest, NewDefaultCopyOptions, List.lookup]

end DatabendGo
